import Mathlib

/-!
Shallow embedding of the pomice library core (pool.py, filters.py) in Lean 4,
together with theorems settling the specification claims about it.

Numbers that Python holds as floats are modelled as rationals: every literal
the code and the claims mention is exactly representable, and the comparisons
performed by the code are exact on those values.  Python dicts that the code
only extends with fresh keys are modelled as insertion-ordered association
lists.  Fallible Python code (raising exceptions) is modelled with Except.
-/

namespace Pomice

/-! ### Filters (filters.py)

Filter payloads of the filters under study are JSON objects mapping one filter
name to an object of numeric fields; they are modelled as insertion-ordered
association lists. -/

abbrev FilterPayload := List (String × List (String × Rat))

/-- Errors raised by filter constructors: FilterInvalidArgument from
pomice.exceptions, and the built-in ValueError (used by ChannelMix). -/
inductive FilterError where
  | filterInvalidArgument (msg : String)
  | valueError (msg : String)
deriving DecidableEq, Repr

/-- Timescale filter fields (filters.py, Timescale). -/
structure Timescale where
  speed : Rat
  pitch : Rat
  rate : Rat
deriving DecidableEq, Repr

/-- Timescale constructor (filters.py lines 122-144): rejects negative
speed, pitch or rate with FilterInvalidArgument, in that order. -/
def Timescale.init (speed pitch rate : Rat) : Except FilterError Timescale :=
  if speed < 0 then
    .error (.filterInvalidArgument "Timescale speed must be more than 0.")
  else if pitch < 0 then
    .error (.filterInvalidArgument "Timescale pitch must be more than 0.")
  else if rate < 0 then
    .error (.filterInvalidArgument "Timescale rate must be more than 0.")
  else
    .ok { speed := speed, pitch := pitch, rate := rate }

/-- Timescale payload (filters.py lines 142-144). -/
def Timescale.payload (t : Timescale) : FilterPayload :=
  [("timescale", [("speed", t.speed), ("pitch", t.pitch), ("rate", t.rate)])]

/-- Tremolo filter fields (filters.py, Tremolo). -/
structure Tremolo where
  frequency : Rat
  depth : Rat
deriving DecidableEq, Repr

/-- Tremolo constructor (filters.py lines 187-206): rejects negative
frequency, and depth outside the unit interval. -/
def Tremolo.init (frequency depth : Rat) : Except FilterError Tremolo :=
  if frequency < 0 then
    .error (.filterInvalidArgument "Tremolo frequency must be more than 0.")
  else if depth < 0 ∨ depth > 1 then
    .error (.filterInvalidArgument "Tremolo depth must be between 0 and 1.")
  else
    .ok { frequency := frequency, depth := depth }

/-- Tremolo payload (filters.py lines 205-206). -/
def Tremolo.payload (t : Tremolo) : FilterPayload :=
  [("tremolo", [("frequency", t.frequency), ("depth", t.depth)])]

/-- Vibrato filter fields (filters.py, Vibrato). -/
structure Vibrato where
  frequency : Rat
  depth : Rat
deriving DecidableEq, Repr

/-- Vibrato constructor (filters.py lines 217-236): rejects frequency outside
the interval from 0 to 14, and depth outside the unit interval. -/
def Vibrato.init (frequency depth : Rat) : Except FilterError Vibrato :=
  if frequency < 0 ∨ frequency > 14 then
    .error (.filterInvalidArgument "Vibrato frequency must be between 0 and 14.")
  else if depth < 0 ∨ depth > 1 then
    .error (.filterInvalidArgument "Vibrato depth must be between 0 and 1.")
  else
    .ok { frequency := frequency, depth := depth }

/-- Vibrato payload (filters.py lines 235-236). -/
def Vibrato.payload (v : Vibrato) : FilterPayload :=
  [("vibrato", [("frequency", v.frequency), ("depth", v.depth)])]

/-- ChannelMix filter fields (filters.py, ChannelMix), in the order of the
Python keyword parameters. -/
structure ChannelMix where
  left_to_left : Rat
  right_to_right : Rat
  left_to_right : Rat
  right_to_left : Rat
deriving DecidableEq, Repr

/-- ChannelMix constructor (filters.py lines 262-294).  The Python source
guards each ratio with the chained comparison 0 > value > 1, which Python
reads as 0 > value and value > 1; these guards are embedded exactly as the
code evaluates them (they raise ValueError, not FilterInvalidArgument). -/
def ChannelMix.init (left_to_left right_to_right left_to_right right_to_left : Rat) :
    Except FilterError ChannelMix :=
  if 0 > left_to_left ∧ left_to_left > 1 then
    .error (.valueError
      "'left_to_left' value must be more than or equal to 0 or less than or equal to 1.")
  else if 0 > right_to_right ∧ right_to_right > 1 then
    .error (.valueError
      "'right_to_right' value must be more than or equal to 0 or less than or equal to 1.")
  else if 0 > left_to_right ∧ left_to_right > 1 then
    .error (.valueError
      "'left_to_right' value must be more than or equal to 0 or less than or equal to 1.")
  else if 0 > right_to_left ∧ right_to_left > 1 then
    .error (.valueError
      "'right_to_left' value must be more than or equal to 0 or less than or equal to 1.")
  else
    .ok { left_to_left := left_to_left, right_to_right := right_to_right,
          left_to_right := left_to_right, right_to_left := right_to_left }

/-- ChannelMix payload (filters.py lines 290-294). -/
def ChannelMix.payload (c : ChannelMix) : FilterPayload :=
  [("channelMix", [("leftToLeft", c.left_to_left),
                   ("leftToRight", c.left_to_right),
                   ("rightToLeft", c.right_to_left),
                   ("rightToRight", c.right_to_right)])]

/-! ### Node pool (pool.py, class NodePool)

A pool entry is modelled by the fields of a Node that the pool operations
read: its identifier, its availability flag, and the size of its player
dict.  The pool itself (a Python dict keyed by identifier, only ever
extended with fresh keys) is an insertion-ordered list of entries. -/

/-- The projection of a Node that NodePool reads. -/
structure PoolNode where
  identifier : String
  available : Bool
  playerCount : Nat
deriving DecidableEq, Repr

/-- Errors raised by the pool operations (pomice.exceptions). -/
inductive PoolError where
  | noNodesAvailable
  | nodeCreationError
  | nodeConnectionFailure
deriving DecidableEq, Repr

/-- Python built-in errors the embedded code can hit: a KeyError from a
missing dict key, and a TypeError from item deletion on a non-container
object. -/
inductive PyError where
  | keyError
  | typeError
deriving DecidableEq, Repr

/-- Result of NodePool.get_node: a node, or the Python None that
available_nodes.get(identifier, None) produces on a miss. -/
inductive NodeResult where
  | found (n : PoolNode)
  | notFound
deriving DecidableEq, Repr

/-- The dict comprehension in get_node (pool.py lines 451-454) keeping the
nodes whose available flag is set. -/
def available_nodes (nodes : List PoolNode) : List PoolNode :=
  nodes.filter (fun n => n.available)

/-- The sort key of get_node: sorted(..., key=lambda n: len(n.players)). -/
def nodeLE (a b : PoolNode) : Bool :=
  decide (a.playerCount ≤ b.playerCount)

/-- NodePool.get_node (pool.py lines 446-462).  With no identifier it takes
the head of the stable sort of the available nodes by player count; with an
identifier it is a dict lookup defaulting to None.  The inner head of the
sorted list of a nonempty list always exists; the unreachable fallback is
mapped to notFound. -/
def get_node (nodes : List PoolNode) (identifier : Option String) :
    Except PoolError NodeResult :=
  let avail := available_nodes nodes
  if avail.isEmpty then
    .error .noNodesAvailable
  else
    match identifier with
    | none =>
        match (avail.mergeSort nodeLE).head? with
        | some n => .ok (.found n)
        | none => .ok .notFound
    | some i =>
        match avail.find? (fun n => n.identifier == i) with
        | some n => .ok (.found n)
        | none => .ok .notFound

/-- NodePool.create_node (pool.py lines 464-492), returning the call result
paired with the registry after the call.  The network effect of
Node.connect is abstracted by the connectOk flag: on success the node has
its available flag set and an empty player dict and is appended to the
registry; on failure NodeConnectionFailure propagates and the registry is
untouched. -/
def create_node (nodes : List PoolNode) (identifier : String) (connectOk : Bool) :
    Except PoolError PoolNode × List PoolNode :=
  if nodes.any (fun n => n.identifier == identifier) then
    (.error .nodeCreationError, nodes)
  else if connectOk then
    let node : PoolNode := { identifier := identifier, available := true, playerCount := 0 }
    (.ok node, nodes ++ [node])
  else
    (.error .nodeConnectionFailure, nodes)

/-- The pool mutation attempted by Node.disconnect (pool.py line 253):
del self._pool.nodes[self._identifier], returning the call result paired
with the registry after the call.  The _pool attribute holds the class
NodePool itself (create_node constructs Node with pool=cls, pool.py line
485) and nodes is a property (pool.py lines 437-440); reading a property
through the class yields the property object, not the dict, so the
deletion raises TypeError on every call and the registry is never
mutated. -/
def disconnect (nodes : List PoolNode) (_identifier : String) :
    Except PyError Unit × List PoolNode :=
  (.error .typeError, nodes)

/-! ### Query classification (the three regular expressions in pool.py)

The three patterns are anchored (re.match) or searched (re.search) over the
query string; they are embedded as deterministic matchers over character
lists.  An unescaped dot in a pattern matches any character; the escaped dot
of www is literal. -/

/-- Matches the regex piece https?:// at the start of the input and returns
the remainder. -/
def stripHttpScheme : List Char → Option (List Char)
  | 'h' :: 't' :: 't' :: 'p' :: 's' :: ':' :: '/' :: '/' :: rest => some rest
  | 'h' :: 't' :: 't' :: 'p' :: ':' :: '/' :: '/' :: rest => some rest
  | _ => none

/-- Matches a pattern whose dot is the regex wildcard (any character);
other pattern characters are literal.  Returns the remaining input. -/
def matchWild : List Char → List Char → Option (List Char)
  | [], s => some s
  | _ :: _, [] => none
  | p :: ps, c :: cs => if p == '.' ∨ p == c then matchWild ps cs else none

/-- Matches a fully literal pattern and returns the remaining input. -/
def matchLit : List Char → List Char → Option (List Char)
  | [], s => some s
  | _ :: _, [] => none
  | p :: ps, c :: cs => if p == c then matchLit ps cs else none

/-- Greedy plus over a character class: takes the maximal nonempty run of
characters satisfying p, returning the run and the remaining input. -/
def takeWhile1 (p : Char → Bool) (s : List Char) : Option (List Char × List Char) :=
  let t := s.takeWhile p
  if t.isEmpty then none else some (t, s.drop t.length)

/-- Matches one literal character. -/
def matchChar (c : Char) : List Char → Option (List Char)
  | d :: rest => if d == c then some rest else none
  | [] => none

/-- First-match alternation over literal alternatives, as in
(album|artist|playlist|track). -/
def matchAlts (alts : List (List Char)) (s : List Char) : Option (List Char × List Char) :=
  match alts with
  | [] => none
  | a :: rest =>
    match matchLit a s with
    | some r => some (a, r)
    | none => matchAlts rest s

/-- The character class of the file group of DISCORD_MP3_URL_REGEX. -/
def isFileChar (c : Char) : Bool :=
  c.isAlphanum || c == '_' || c == '.'

/-- re.match of DISCORD_MP3_URL_REGEX (pool.py lines 39-42); on success
returns the file group, the maximal run of file characters after the
message id segment. -/
def matchDiscordMp3 (query : String) : Option String :=
  (stripHttpScheme query.toList).bind fun s1 =>
  (matchWild "cdn.discordapp.com/attachments/".toList s1).bind fun s2 =>
  (takeWhile1 Char.isDigit s2).bind fun chan =>
  (matchChar '/' chan.2).bind fun s3 =>
  (takeWhile1 Char.isDigit s3).bind fun msg =>
  (matchChar '/' msg.2).bind fun s4 =>
  (takeWhile1 isFileChar s4).map fun file => String.mk file.1

/-- re.match of SPOTIFY_URL_REGEX (pool.py lines 35-37); on success returns
the type and id groups. -/
def matchSpotify (query : String) : Option (String × String) :=
  (stripHttpScheme query.toList).bind fun s1 =>
  (matchWild "open.spotify.com/".toList s1).bind fun s2 =>
  (matchAlts ["album".toList, "artist".toList, "playlist".toList, "track".toList] s2).bind
    fun ty =>
  (matchChar '/' ty.2).bind fun s3 =>
  (takeWhile1 Char.isAlphanum s3).map fun i => (String.mk ty.1, String.mk i.1)

/-- The regex piece dot-plus: at least one character, where the wildcard dot
does not match a newline. -/
def matchDotPlus (s : List Char) : Bool :=
  match s with
  | [] => false
  | c :: _ => c != '\n'

/-- Match of URL_REGEX (pool.py lines 44-46) at one position: the scheme,
then an optional literal www. group tried greedily with backtracking, then
at least one character. -/
def matchUrlAt (s : List Char) : Bool :=
  match stripHttpScheme s with
  | none => false
  | some r =>
    match matchLit "www.".toList r with
    | some r2 => matchDotPlus r2 || matchDotPlus r
    | none => matchDotPlus r

/-- re.search of URL_REGEX: the pattern matches at some position of the
query. -/
def urlSearch (query : String) : Bool :=
  (List.range (query.length + 1)).any fun i => matchUrlAt (query.toList.drop i)

/-! ### Tracks, playlists and backend responses -/

/-- Modelled from the spec: the metadata mapping of a Track (the Track value
object lives in objects.py, which is not among the sources).  Per the spec a
Track carries title, author, duration, seekability, stream flag, source
name, URI and thumbnail; the fields are taken verbatim from the info
mapping supplied at construction. -/
structure TrackInfo where
  identifier : Option String
  isSeekable : Bool
  author : String
  length : Nat
  isStream : Bool
  position : Nat
  sourceName : Option String
  title : String
  uri : Option String
  thumbnail : Option String
deriving DecidableEq, Repr

/-- Modelled from the spec: the Track value object (objects.py, not among
the sources): an identifier string meaningful only to the backend plus metadata and
provenance, immutable once constructed. -/
structure Track where
  track_id : String
  info : TrackInfo
  spotify : Bool
deriving DecidableEq, Repr

/-- Modelled from the spec: the Playlist value object (objects.py, not among
the sources): name, selected index, ordered sequence of Track, optional
thumbnail and URI, immutable once constructed. -/
structure Playlist where
  name : String
  selectedTrack : Nat
  tracks : List Track
  thumbnail : Option String
  uri : Option String
deriving DecidableEq, Repr

/-- The track count of a Playlist: the length of its track sequence. -/
def Playlist.track_count (p : Playlist) : Nat :=
  p.tracks.length

/-- One entry of the tracks array of a backend load response: the backend-issued
track string and the info mapping. -/
structure BackendTrack where
  track : String
  info : TrackInfo
deriving DecidableEq, Repr

/-- The playlistInfo object of a backend load response. -/
structure PlaylistInfo where
  name : String
  selectedTrack : Nat
deriving DecidableEq, Repr

/-- The exception object of a backend LOAD_FAILED response. -/
structure LoadException where
  message : String
  severity : String
deriving DecidableEq, Repr

/-- A backend load response: loadType (absent or possibly empty), the
tracks array, the playlist metadata, and the optional exception object
(read only on LOAD_FAILED, where a missing key would be a KeyError). -/
structure LoadResponse where
  loadType : Option String
  tracks : List BackendTrack
  playlistInfo : PlaylistInfo
  exception : Option LoadException
deriving DecidableEq, Repr

/-- One track returned by the external Spotify catalog client. -/
structure SpotifyTrack where
  id : String
  artists : String
  length : Nat
  name : String
  uri : String
  image : Option String
deriving DecidableEq, Repr

/-- A collection (album, playlist or artist page) returned by the Spotify
catalog client. -/
structure SpotifyCollection where
  name : String
  image : Option String
  uri : String
  tracks : List SpotifyTrack
deriving DecidableEq, Repr

/-- The result of the external Spotify catalog lookup. -/
inductive SpotifyResult where
  | track (t : SpotifyTrack)
  | collection (c : SpotifyCollection)
deriving DecidableEq, Repr

/-- The credential configuration of a Node (Node, pool.py lines 99-105). -/
structure NodeConfig where
  spotify_client_id : Option String
  spotify_client_secret : Option String
deriving DecidableEq, Repr

/-- Whether the Node constructor created the Spotify client attribute
(pool.py line 102): it does so only when both credentials are present. -/
def NodeConfig.hasSpotifyClient (cfg : NodeConfig) : Bool :=
  cfg.spotify_client_id.isSome && cfg.spotify_client_secret.isSome

/-- Errors surfaced by get_tracks: TrackLoadError and
InvalidSpotifyClientAuthorization from pomice.exceptions, plus the Python
built-ins the code can hit: an AttributeError when the Spotify client
attribute was never created, an IndexError from indexing an empty tracks
array, and a KeyError from a missing dict key. -/
inductive LoadError where
  | trackLoadError (msg : String)
  | invalidSpotifyClientAuthorization
  | attributeError
  | indexError
  | keyError (key : String)
deriving DecidableEq, Repr

/-- The value returned by get_tracks: a list of tracks, a playlist, or the
implicit Python None that an unrecognized loadType falls through to. -/
inductive LoadResult where
  | tracks (ts : List Track)
  | playlist (p : Playlist)
  | pyNone
deriving DecidableEq, Repr

/-- The Track built for one Spotify catalog track (pool.py lines 312-350). -/
def spotifyTrackToTrack (t : SpotifyTrack) : Track :=
  { track_id := t.id, spotify := true,
    info := { identifier := some t.id, isSeekable := true, author := t.artists,
              length := t.length, isStream := false, position := 0,
              sourceName := none, title := t.name, uri := some t.uri,
              thumbnail := t.image } }

/-- The Track built from one backend track entry in the generic branch
(pool.py lines 415-425): the backend-issued track string plus its info mapping. -/
def backendTrackToTrack (t : BackendTrack) : Track :=
  { track_id := t.track, info := t.info, spotify := false }

/-- The Playlist of the generic PLAYLIST_LOADED branch (pool.py lines
407-413), via the spec-modelled Playlist constructor: one Track per backend
track entry. -/
def Playlist.ofBackend (pinfo : PlaylistInfo) (ts : List BackendTrack) : Playlist :=
  { name := pinfo.name, selectedTrack := pinfo.selectedTrack,
    tracks := ts.map backendTrackToTrack, thumbnail := none, uri := none }

/-- The search-tag prefixing step of get_tracks (pool.py lines 299-300):
queries that are not URLs and not local get the search type tag glued in
front. -/
def effective_query (query searchType : String) (isLocal : Bool) : String :=
  if !(urlSearch query) && !isLocal then searchType ++ ":" ++ query else query

/-- Node.get_tracks (pool.py lines 282-425).  The two network effects are
abstracted as inputs: spotifyResult stands for the external catalog lookup
and response for the backend load request; the function shows which of
them the control flow consults. -/
def get_tracks (cfg : NodeConfig) (query : String) (searchType : String)
    (isLocal : Bool) (spotifyResult : SpotifyResult) (response : LoadResponse) :
    Except LoadError LoadResult :=
  let q := effective_query query searchType isLocal
  match matchSpotify q with
  | some _ =>
    if cfg.spotify_client_id.isNone && cfg.spotify_client_secret.isNone then
      .error .invalidSpotifyClientAuthorization
    else if !cfg.hasSpotifyClient then
      .error .attributeError
    else
      match spotifyResult with
      | .track t => .ok (.tracks [spotifyTrackToTrack t])
      | .collection c =>
          .ok (.playlist { name := c.name, selectedTrack := 0,
                           tracks := c.tracks.map spotifyTrackToTrack,
                           thumbnail := c.image, uri := some c.uri })
  | none =>
    match matchDiscordMp3 q with
    | some file =>
      match response.tracks with
      | [] => .error .indexError
      | t :: _ =>
        let info : TrackInfo :=
          { identifier := t.info.identifier, isSeekable := true,
            author := "Unknown", length := t.info.length,
            isStream := false, position := 0,
            sourceName := some "http", title := file,
            uri := t.info.uri, thumbnail := none }
        .ok (.tracks [{ track_id := t.track, info := info, spotify := false }])
    | none =>
      match response.loadType with
      | none =>
        .error (.trackLoadError
          "There was an error while trying to load this track. [NO_LOADTYPE]")
      | some lt =>
        if lt == "" then
          .error (.trackLoadError
            "There was an error while trying to load this track. [NO_LOADTYPE]")
        else if lt == "NO_MATCHES" then
          .error (.trackLoadError "No matches found. [NO_MATCHES]")
        else if lt == "LOAD_FAILED" then
          match response.exception with
          | none => .error (.keyError "exception")
          | some e => .error (.trackLoadError (e.message ++ " [" ++ e.severity ++ "]"))
        else if lt == "PLAYLIST_LOADED" then
          .ok (.playlist (Playlist.ofBackend response.playlistInfo response.tracks))
        else if lt == "SEARCH_RESULT" || lt == "TRACK_LOADED" then
          .ok (.tracks (response.tracks.map backendTrackToTrack))
        else
          .ok .pyNone

/-! ### Frame handling (Node, pool.py lines 191-206) -/

/-- An inbound frame: the optional op field (possibly empty, which Python
treats as falsy) and the optional guildId field. -/
structure EventPayload where
  op : Option String
  guildId : Option Int
deriving DecidableEq, Repr

/-- The calls the handler makes into a registered player: the event
dispatch and the state update, each carrying the frame. -/
inductive HandlerEffect where
  | dispatchEvent (guildId : Int) (data : EventPayload)
  | updateState (guildId : Int) (data : EventPayload)
deriving DecidableEq, Repr

/-- The node state the handler touches: the stats snapshot and the set of
registered player guild ids. -/
structure HandlerState where
  stats : Option EventPayload
  players : List Int
deriving DecidableEq, Repr

/-- Node.handle_payload (pool.py lines 191-206), returning the state after
the call and the player invocations made, or the KeyError a frame missing
its guildId would raise past the stats branch. -/
def handle_payload (st : HandlerState) (data : EventPayload) :
    Except PyError (HandlerState × List HandlerEffect) :=
  match data.op with
  | none => .ok (st, [])
  | some op =>
    if op == "" then .ok (st, [])
    else if op == "stats" then .ok ({ st with stats := some data }, [])
    else
      match data.guildId with
      | none => .error .keyError
      | some gid =>
        if st.players.contains gid then
          if op == "event" then .ok (st, [.dispatchEvent gid data])
          else if op == "playerUpdate" then .ok (st, [.updateState gid data])
          else .ok (st, [])
        else
          .ok (st, [])

/-! ### Helper lemmas -/

/-- Equality of Except values is decidable componentwise. -/
instance {ε α : Type} [DecidableEq ε] [DecidableEq α] : DecidableEq (Except ε α) :=
  fun a b =>
  match a, b with
  | .ok x, .ok y =>
      if h : x = y then isTrue (by rw [h])
      else isFalse (by intro hc; cases hc; exact h rfl)
  | .error x, .error y =>
      if h : x = y then isTrue (by rw [h])
      else isFalse (by intro hc; cases hc; exact h rfl)
  | .ok _, .error _ => isFalse (by intro hc; cases hc)
  | .error _, .ok _ => isFalse (by intro hc; cases hc)

theorem nodeLE_trans :
    ∀ a b c : PoolNode, nodeLE a b = true → nodeLE b c = true → nodeLE a c = true := by
  intro a b c hab hbc
  simp only [nodeLE, decide_eq_true_eq] at hab hbc ⊢
  omega

theorem nodeLE_total : ∀ a b : PoolNode, (nodeLE a b || nodeLE b a) = true := by
  intro a b
  simp only [nodeLE, Bool.or_eq_true, decide_eq_true_eq]
  omega

/-- The head of the stable sort by player count has minimal player count. -/
theorem mergeSort_head_min (l : List PoolNode) (n : PoolNode) (rest : List PoolNode)
    (h : l.mergeSort nodeLE = n :: rest) :
    ∀ m ∈ l, n.playerCount ≤ m.playerCount := by
  intro m hm
  have hmem : m ∈ l.mergeSort nodeLE := List.mem_mergeSort.mpr hm
  rw [h] at hmem
  rcases List.mem_cons.mp hmem with rfl | hmem2
  · exact le_refl _
  · have hp : List.Pairwise (fun a b => nodeLE a b = true) (l.mergeSort nodeLE) :=
      List.sorted_mergeSort nodeLE_trans nodeLE_total l
    rw [h] at hp
    have := (List.pairwise_cons.mp hp).1 m hmem2
    simpa [nodeLE] using this

/-- The stable sort of a nonempty list is nonempty, so it has a head. -/
theorem mergeSort_exists_head (l : List PoolNode) (hne : l ≠ []) :
    ∃ n rest, l.mergeSort nodeLE = n :: rest := by
  cases hcase : l.mergeSort nodeLE with
  | nil =>
      exfalso
      have hp := List.mergeSort_perm l nodeLE
      rw [hcase] at hp
      exact hne hp.symm.eq_nil
  | cons n rest => exact ⟨n, rest, rfl⟩

/-! ### Claims about the node pool -/

/-- C1: for every pool state, get_node with no identifier raises
NoNodesAvailable exactly when no registered node is available, and
otherwise returns a node that is available, registered, and of minimal
player count among the available nodes; being a function of the node list,
the selection (and so the tie-break on equal load) is deterministic. -/
theorem c1_get_node_best (nodes : List PoolNode) :
    (get_node nodes none = .error .noNodesAvailable ↔ available_nodes nodes = []) ∧
    (∀ n, get_node nodes none = .ok (.found n) →
        n ∈ nodes ∧ n.available = true ∧
        ∀ m ∈ nodes, m.available = true → n.playerCount ≤ m.playerCount) ∧
    (available_nodes nodes ≠ [] → ∃ n, get_node nodes none = .ok (.found n)) := by
  by_cases h : available_nodes nodes = []
  · refine ⟨by simp [get_node, h], ?_, fun hne => absurd h hne⟩
    intro n hn
    simp [get_node, h] at hn
  · have hne : (available_nodes nodes).isEmpty = false := by
      simpa [List.isEmpty_iff] using h
    obtain ⟨n, rest, hms⟩ := mergeSort_exists_head (available_nodes nodes) h
    have hgn : get_node nodes none = .ok (.found n) := by
      simp [get_node, hne, hms]
    refine ⟨by simp [hgn, h], ?_, fun _ => ⟨n, hgn⟩⟩
    intro n' hn'
    rw [hgn] at hn'
    have hn'n : n' = n := by
      cases hn'
      rfl
    subst hn'n
    have hmem : n' ∈ available_nodes nodes := by
      have : n' ∈ (available_nodes nodes).mergeSort nodeLE := by
        rw [hms]; exact List.mem_cons_self _ _
      exact List.mem_mergeSort.mp this
    have hfil := List.mem_filter.mp hmem
    refine ⟨hfil.1, by simpa using hfil.2, ?_⟩
    intro m hm hmav
    exact mergeSort_head_min (available_nodes nodes) n' rest hms m
      (List.mem_filter.mpr ⟨hm, by simpa using hmav⟩)

/-- Witness for C1 at a concrete pool: a best node exists. -/
theorem c1_get_node_best_witness :
    ∃ n, get_node [⟨"a", true, 2⟩, ⟨"b", true, 1⟩] none = .ok (.found n) :=
  (c1_get_node_best [⟨"a", true, 2⟩, ⟨"b", true, 1⟩]).2.2 (by decide)

/-- C10: get_node with an identifier raises NoNodesAvailable whenever no
registered node is available, even if the identifier names a registered
node; and when some node is available but none of the available nodes
carries the identifier (for instance a registered but unavailable one), it
returns the Python None. -/
theorem c10_get_node_identifier (nodes : List PoolNode) (x : String) :
    ((∀ n ∈ nodes, n.available = false) →
        get_node nodes (some x) = .error .noNodesAvailable) ∧
    ((∃ n ∈ nodes, n.available = true) →
      (∀ n ∈ nodes, n.available = true → n.identifier ≠ x) →
        get_node nodes (some x) = .ok .notFound) := by
  constructor
  · intro hall
    have h : available_nodes nodes = [] := by
      rw [available_nodes, List.filter_eq_nil_iff]
      intro a ha
      simp [hall a ha]
    simp [get_node, h]
  · rintro ⟨n, hn, hav⟩ hnone
    have hmem : n ∈ available_nodes nodes :=
      List.mem_filter.mpr ⟨hn, by simpa using hav⟩
    have hne : (available_nodes nodes).isEmpty = false := by
      have hnil : available_nodes nodes ≠ [] := by
        intro hc
        rw [hc] at hmem
        exact absurd hmem (List.not_mem_nil n)
      simpa [List.isEmpty_iff] using hnil
    have hfind : (available_nodes nodes).find? (fun m => m.identifier == x) = none := by
      rw [List.find?_eq_none]
      intro m hm
      have hf := List.mem_filter.mp hm
      simpa using hnone m hf.1 (by simpa using hf.2)
    simp [get_node, hne, hfind]

/-- Witness for C10 at a concrete pool holding only an unavailable node
named by the requested identifier. -/
theorem c10_get_node_identifier_witness :
    get_node [⟨"a", false, 0⟩] (some "a") = .error .noNodesAvailable :=
  (c10_get_node_identifier [⟨"a", false, 0⟩] "a").1 (by decide)

/-- C2: create_node on a duplicate identifier raises NodeCreationError and
leaves the registry unchanged; on a fresh identifier the connection failure
leaves the registry unchanged, and only a successful connection appends the
new node (available, with no players) to the registry. -/
theorem c2_create_node (nodes : List PoolNode) (ident : String) (connectOk : Bool) :
    ((∃ n ∈ nodes, n.identifier = ident) →
        create_node nodes ident connectOk = (.error .nodeCreationError, nodes)) ∧
    ((∀ n ∈ nodes, n.identifier ≠ ident) →
        create_node nodes ident false = (.error .nodeConnectionFailure, nodes)) ∧
    ((∀ n ∈ nodes, n.identifier ≠ ident) →
        create_node nodes ident true =
          (.ok ⟨ident, true, 0⟩, nodes ++ [⟨ident, true, 0⟩])) := by
  refine ⟨?_, ?_, ?_⟩
  · rintro ⟨n, hn, hid⟩
    have hany : nodes.any (fun n => n.identifier == ident) = true :=
      List.any_eq_true.mpr ⟨n, hn, by simpa using hid⟩
    simp [create_node, hany]
  · intro hfresh
    have hany : nodes.any (fun n => n.identifier == ident) = false := by
      rw [Bool.eq_false_iff]
      intro hc
      obtain ⟨n, hn, hid⟩ := List.any_eq_true.mp hc
      exact hfresh n hn (by simpa using hid)
    simp [create_node, hany]
  · intro hfresh
    have hany : nodes.any (fun n => n.identifier == ident) = false := by
      rw [Bool.eq_false_iff]
      intro hc
      obtain ⟨n, hn, hid⟩ := List.any_eq_true.mp hc
      exact hfresh n hn (by simpa using hid)
    simp [create_node, hany]

/-- Witness for C2 at a concrete pool: a duplicate registration fails and
leaves the one-node registry as it was. -/
theorem c2_create_node_witness :
    create_node [⟨"a", true, 0⟩] "a" true = (.error .nodeCreationError, [⟨"a", true, 0⟩]) :=
  (c2_create_node [⟨"a", true, 0⟩] "a" true).1 ⟨⟨"a", true, 0⟩, by decide, rfl⟩

/-- C6: the code disagrees with the claim: the pool deletion in disconnect
reads the nodes property through the class NodePool, which yields the
property object itself, so the deletion raises TypeError on every call;
the node identifier is never removed from the registry (already the first
call fails, contradicting the docstring of disconnect and making the
claimed safe second call unreachable).  Evaluated at a concrete one-node
pool and in general. -/
theorem c6_disconnect_typeerror :
    disconnect [⟨"a", true, 0⟩] "a" = (.error .typeError, [⟨"a", true, 0⟩]) ∧
    ∀ nodes identifier, disconnect nodes identifier = (.error .typeError, nodes) :=
  ⟨rfl, fun _ _ => rfl⟩

/-! ### Claims about track resolution -/

/-- A successful wildcard match of a nonempty pattern forces a nonempty
input whose head is accepted by the pattern head. -/
theorem matchWild_cons_some (p : Char) (ps : List Char) (s r : List Char)
    (h : matchWild (p :: ps) s = some r) :
    ∃ c cs, s = c :: cs ∧ (p == '.' ∨ p == c) := by
  match s with
  | [] => simp [matchWild] at h
  | c :: cs =>
    refine ⟨c, cs, rfl, ?_⟩
    by_contra hc
    rw [matchWild.eq_def] at h
    simp only [if_neg hc] at h
    exact Option.noConfusion h

/-- A wildcard match fails when the pattern head rejects the input head. -/
theorem matchWild_cons_none (p : Char) (ps : List Char) (c : Char) (cs : List Char)
    (hc : ¬(p == '.' ∨ p == c)) :
    matchWild (p :: ps) (c :: cs) = none := by
  rw [matchWild.eq_def]
  simp only [if_neg hc]

/-- A query matching the attachment pattern cannot match the catalog
pattern: after the scheme the first expects the literal letter c, the
second the literal letter o. -/
theorem matchDiscordMp3_not_spotify (q f : String) (h : matchDiscordMp3 q = some f) :
    matchSpotify q = none := by
  unfold matchDiscordMp3 at h
  unfold matchSpotify
  cases hs : stripHttpScheme q.toList with
  | none => rfl
  | some r =>
    rw [hs] at h
    simp only [Option.some_bind] at h ⊢
    cases hw : matchWild "cdn.discordapp.com/attachments/".toList r with
    | none => rw [hw] at h; simp at h
    | some r2 =>
      have hlist : "cdn.discordapp.com/attachments/".toList
          = 'c' :: "dn.discordapp.com/attachments/".toList := rfl
      rw [hlist] at hw
      obtain ⟨c, cs, rfl, hcond⟩ := matchWild_cons_some _ _ _ _ hw
      have hcc : c = 'c' := by
        rcases hcond with hdot | hceq
        · exact absurd hdot (by decide)
        · exact (beq_iff_eq.mp hceq).symm
      subst hcc
      have hnone : matchWild "open.spotify.com/".toList ('c' :: cs) = none := by
        have hl2 : "open.spotify.com/".toList = 'o' :: "pen.spotify.com/".toList := rfl
        rw [hl2]
        exact matchWild_cons_none _ _ _ _ (by decide)
      rw [hnone]
      rfl

/-- C3: in the generic branch of get_tracks (no catalog and no attachment
match), a missing or empty loadType raises the NO_LOADTYPE failure;
NO_MATCHES raises its failure; LOAD_FAILED raises a failure carrying the
backend message and severity; PLAYLIST_LOADED yields a Playlist with one
track per backend entry; SEARCH_RESULT and TRACK_LOADED yield a track list
with one entry per backend entry. -/
theorem c3_generic_load (cfg : NodeConfig) (query searchType : String) (isLocal : Bool)
    (sp : SpotifyResult) (response : LoadResponse)
    (hsp : matchSpotify (effective_query query searchType isLocal) = none)
    (hdc : matchDiscordMp3 (effective_query query searchType isLocal) = none) :
    (response.loadType = none →
        get_tracks cfg query searchType isLocal sp response =
          .error (.trackLoadError
            "There was an error while trying to load this track. [NO_LOADTYPE]")) ∧
    (response.loadType = some "NO_MATCHES" →
        get_tracks cfg query searchType isLocal sp response =
          .error (.trackLoadError "No matches found. [NO_MATCHES]")) ∧
    (∀ e, response.loadType = some "LOAD_FAILED" → response.exception = some e →
        get_tracks cfg query searchType isLocal sp response =
          .error (.trackLoadError (e.message ++ " [" ++ e.severity ++ "]"))) ∧
    (response.loadType = some "PLAYLIST_LOADED" →
        ∃ p, get_tracks cfg query searchType isLocal sp response = .ok (.playlist p) ∧
          p.track_count = response.tracks.length) ∧
    ((response.loadType = some "SEARCH_RESULT" ∨ response.loadType = some "TRACK_LOADED") →
        ∃ ts, get_tracks cfg query searchType isLocal sp response = .ok (.tracks ts) ∧
          ts.length = response.tracks.length) := by
  refine ⟨?_, ?_, ?_, ?_, ?_⟩
  · intro hlt
    simp [get_tracks, hsp, hdc, hlt]
  · intro hlt
    simp [get_tracks, hsp, hdc, hlt]
  · intro e hlt hex
    simp [get_tracks, hsp, hdc, hlt, hex]
  · intro hlt
    refine ⟨Playlist.ofBackend response.playlistInfo response.tracks, ?_, ?_⟩
    · simp [get_tracks, hsp, hdc, hlt]
    · simp [Playlist.ofBackend, Playlist.track_count]
  · intro hlt
    refine ⟨response.tracks.map backendTrackToTrack, ?_, by simp⟩
    rcases hlt with hlt | hlt <;> simp [get_tracks, hsp, hdc, hlt]

/-- Witness for C3 at a concrete generic query whose backend answers
NO_MATCHES. -/
theorem c3_generic_load_witness :
    get_tracks ⟨none, none⟩ "https://example.com/a" "ytsearch" false
        (.track ⟨"i", "a", 0, "n", "u", none⟩) ⟨some "NO_MATCHES", [], ⟨"", 0⟩, none⟩ =
      .error (.trackLoadError "No matches found. [NO_MATCHES]") :=
  (c3_generic_load ⟨none, none⟩ "https://example.com/a" "ytsearch" false
    (.track ⟨"i", "a", 0, "n", "u", none⟩) ⟨some "NO_MATCHES", [], ⟨"", 0⟩, none⟩
    (by decide) (by decide)).2.1 rfl

/-- Whether a get_tracks outcome is a TrackLoadError failure. -/
def isTrackLoadFailure : Except LoadError LoadResult → Bool
  | .error (.trackLoadError _) => true
  | _ => false

/-- C4 counterexample: on an attachment query for which the backend returns
no tracks, get_tracks fails with an IndexError (the unguarded indexing of
the empty tracks array), not with the TrackLoadFailure the claim states. -/
theorem c4_counterexample :
    get_tracks ⟨none, none⟩ "https://cdn.discordapp.com/attachments/1/2/song.mp3" "ytsearch"
        false (.track ⟨"i", "a", 0, "n", "u", none⟩) ⟨none, [], ⟨"", 0⟩, none⟩ =
      .error .indexError ∧
    isTrackLoadFailure
      (get_tracks ⟨none, none⟩ "https://cdn.discordapp.com/attachments/1/2/song.mp3" "ytsearch"
        false (.track ⟨"i", "a", 0, "n", "u", none⟩) ⟨none, [], ⟨"", 0⟩, none⟩) = false := by
  refine ⟨by decide, by decide⟩

/-- C4 amended: on a query matching the attachment pattern, a backend
answer with exactly one track yields exactly one Track whose title is the
file segment of the URL and whose source tag is http; a backend answer
with no tracks fails, but with an IndexError rather than a
TrackLoadFailure. -/
theorem c4_attachment (cfg : NodeConfig) (query searchType : String) (isLocal : Bool)
    (sp : SpotifyResult) (response : LoadResponse) (file : String)
    (h : matchDiscordMp3 (effective_query query searchType isLocal) = some file) :
    (response.tracks = [] →
        get_tracks cfg query searchType isLocal sp response = .error .indexError) ∧
    (∀ t, response.tracks = [t] →
        ∃ tr, get_tracks cfg query searchType isLocal sp response = .ok (.tracks [tr]) ∧
          tr.info.title = file ∧ tr.info.sourceName = some "http") := by
  have hsp : matchSpotify (effective_query query searchType isLocal) = none :=
    matchDiscordMp3_not_spotify _ _ h
  constructor
  · intro htr
    simp [get_tracks, hsp, h, htr]
  · intro t htr
    refine ⟨⟨t.track, ⟨t.info.identifier, true, "Unknown", t.info.length, false, 0,
      some "http", file, t.info.uri, none⟩, false⟩, ?_, rfl, rfl⟩
    simp [get_tracks, hsp, h, htr]

/-- Witness for C4 at a concrete attachment query with a one-track backend
answer: the produced title is the file segment and the source tag is http. -/
theorem c4_attachment_witness :
    ∃ tr, get_tracks ⟨none, none⟩ "https://cdn.discordapp.com/attachments/1/2/song.mp3"
        "ytsearch" false (.track ⟨"i", "a", 0, "n", "u", none⟩)
        ⟨none, [⟨"tid", ⟨some "x", true, "y", 7, false, 0, none, "t", some "u2", none⟩⟩],
          ⟨"", 0⟩, none⟩ =
        .ok (.tracks [tr]) ∧
      tr.info.title = "song.mp3" ∧ tr.info.sourceName = some "http" :=
  (c4_attachment ⟨none, none⟩ "https://cdn.discordapp.com/attachments/1/2/song.mp3" "ytsearch"
    false (.track ⟨"i", "a", 0, "n", "u", none⟩)
    ⟨none, [⟨"tid", ⟨some "x", true, "y", 7, false, 0, none, "t", some "u2", none⟩⟩],
      ⟨"", 0⟩, none⟩ "song.mp3" (by decide)).2
    ⟨"tid", ⟨some "x", true, "y", 7, false, 0, none, "t", some "u2", none⟩⟩ rfl

/-- C5 counterexample: a node configured with only one of the two catalog
credentials is not configured with the catalog client, yet a catalog query
does not raise InvalidSpotifyClientAuthorization: the credential guard
requires both fields absent, so the code instead hits the missing client
attribute. -/
theorem c5_counterexample :
    NodeConfig.hasSpotifyClient ⟨some "id", none⟩ = false ∧
    get_tracks ⟨some "id", none⟩ "https://open.spotify.com/track/abc" "ytsearch" false
        (.track ⟨"i", "a", 0, "n", "u", none⟩) ⟨none, [], ⟨"", 0⟩, none⟩ =
      .error .attributeError ∧
    get_tracks ⟨some "id", none⟩ "https://open.spotify.com/track/abc" "ytsearch" false
        (.track ⟨"i", "a", 0, "n", "u", none⟩) ⟨none, [], ⟨"", 0⟩, none⟩ ≠
      .error .invalidSpotifyClientAuthorization := by
  refine ⟨rfl, by decide, by decide⟩

/-- C5 amended: on a query matching the catalog pattern, a node without the
catalog client (credentials incomplete) never consults the catalog lookup
(the outcome is independent of it); it raises
InvalidSpotifyClientAuthorization when both credential fields are absent,
and hits the missing client attribute when exactly one is present. -/
theorem c5_spotify_credentials (cfg : NodeConfig) (query searchType : String)
    (isLocal : Bool) (sp : SpotifyResult) (response : LoadResponse) (pr : String × String)
    (h : matchSpotify (effective_query query searchType isLocal) = some pr)
    (hnc : cfg.hasSpotifyClient = false) :
    (∀ sp2, get_tracks cfg query searchType isLocal sp response =
        get_tracks cfg query searchType isLocal sp2 response) ∧
    (cfg.spotify_client_id = none ∧ cfg.spotify_client_secret = none →
        get_tracks cfg query searchType isLocal sp response =
          .error .invalidSpotifyClientAuthorization) ∧
    (¬(cfg.spotify_client_id = none ∧ cfg.spotify_client_secret = none) →
        get_tracks cfg query searchType isLocal sp response = .error .attributeError) := by
  by_cases hb : cfg.spotify_client_id = none ∧ cfg.spotify_client_secret = none
  · refine ⟨fun sp2 => ?_, fun _ => ?_, fun hcon => absurd hb hcon⟩
    · simp [get_tracks, h, hb.1, hb.2]
    · simp [get_tracks, h, hb.1, hb.2]
  · have hbb : (cfg.spotify_client_id.isNone && cfg.spotify_client_secret.isNone) = false := by
      rw [Bool.eq_false_iff]
      intro hc
      rw [Bool.and_eq_true, Option.isNone_iff_eq_none, Option.isNone_iff_eq_none] at hc
      exact hb hc
    refine ⟨fun sp2 => ?_, fun hcon => absurd hcon hb, fun _ => ?_⟩
    · simp [get_tracks, h, hbb, hnc]
    · simp [get_tracks, h, hbb, hnc]

/-- Witness for C5 at a concrete half-configured node: the catalog query
hits the missing client attribute. -/
theorem c5_spotify_credentials_witness :
    get_tracks ⟨some "id", none⟩ "https://open.spotify.com/track/xyz" "ytsearch" false
        (.track ⟨"i", "a", 0, "n", "u", none⟩) ⟨none, [], ⟨"", 0⟩, none⟩ =
      .error .attributeError :=
  (c5_spotify_credentials ⟨some "id", none⟩ "https://open.spotify.com/track/xyz" "ytsearch"
    false (.track ⟨"i", "a", 0, "n", "u", none⟩) ⟨none, [], ⟨"", 0⟩, none⟩
    ("track", "xyz") (by decide) rfl).2.2 (by simp)

/-! ### Claims about frame handling -/

/-- C9: an event frame whose guild id has no registered player is dropped:
no error, no state change, no player invocation; an event frame whose guild
id has a registered player invokes the event entry point of that player exactly
once with the frame. -/
theorem c9_handle_event (st : HandlerState) (data : EventPayload) (gid : Int)
    (hop : data.op = some "event") (hgid : data.guildId = some gid) :
    (gid ∉ st.players → handle_payload st data = .ok (st, [])) ∧
    (gid ∈ st.players →
        handle_payload st data = .ok (st, [.dispatchEvent gid data])) := by
  constructor
  · intro hmem
    simp [handle_payload, hop, hgid, hmem]
  · intro hmem
    simp [handle_payload, hop, hgid, hmem]

/-- Witness for C9 at a concrete state: the frame of a registered guild is
dispatched once, and the frame of an unregistered guild is dropped. -/
theorem c9_handle_event_witness :
    handle_payload ⟨none, [5]⟩ ⟨some "event", some 5⟩ =
      .ok (⟨none, [5]⟩, [.dispatchEvent 5 ⟨some "event", some 5⟩]) :=
  (c9_handle_event ⟨none, [5]⟩ ⟨some "event", some 5⟩ 5 rfl rfl).2 (by decide)

/-! ### Claims about filter construction -/

/-- C7: the code disagrees with the claim: the ChannelMix ratio guards are
the chained comparisons 0 > value > 1, which no rational satisfies, so the
constructor never raises; a ratio outside the unit interval (here
left_to_left = 2) is accepted and lands verbatim in the payload, and even
the dead guards would raise ValueError rather than FilterInvalidArgument. -/
theorem c7_channelmix_dead_validation :
    ChannelMix.init 2 1 0 0 = .ok ⟨2, 1, 0, 0⟩ ∧
    ChannelMix.payload ⟨2, 1, 0, 0⟩ =
      [("channelMix", [("leftToLeft", 2), ("leftToRight", 0),
                       ("rightToLeft", 0), ("rightToRight", 1)])] ∧
    ∀ ll rr lr rl : Rat, ∃ c, ChannelMix.init ll rr lr rl = .ok c ∧
      c.left_to_left = ll ∧ c.right_to_right = rr ∧
      c.left_to_right = lr ∧ c.right_to_left = rl := by
  refine ⟨by decide, by decide, ?_⟩
  intro ll rr lr rl
  have h1 : ¬(0 > ll ∧ ll > 1) := fun h => absurd (h.2.trans h.1) (by norm_num)
  have h2 : ¬(0 > rr ∧ rr > 1) := fun h => absurd (h.2.trans h.1) (by norm_num)
  have h3 : ¬(0 > lr ∧ lr > 1) := fun h => absurd (h.2.trans h.1) (by norm_num)
  have h4 : ¬(0 > rl ∧ rl > 1) := fun h => absurd (h.2.trans h.1) (by norm_num)
  exact ⟨⟨ll, rr, lr, rl⟩, by simp [ChannelMix.init, h1, h2, h3, h4], rfl, rfl, rfl, rfl⟩

/-- C8: Timescale with speed -1, Tremolo with depth 1.5 and Vibrato with
frequency 15 each raise FilterInvalidArgument; Timescale with speed, pitch
and rate 1 succeeds and its payload is the timescale object carrying those
three values. -/
theorem c8_filter_validation :
    Timescale.init (-1) 1 1 =
      .error (.filterInvalidArgument "Timescale speed must be more than 0.") ∧
    Tremolo.init 2 1.5 =
      .error (.filterInvalidArgument "Tremolo depth must be between 0 and 1.") ∧
    Vibrato.init 15 0.5 =
      .error (.filterInvalidArgument "Vibrato frequency must be between 0 and 14.") ∧
    Timescale.init 1 1 1 = .ok ⟨1, 1, 1⟩ ∧
    Timescale.payload ⟨1, 1, 1⟩ =
      [("timescale", [("speed", 1), ("pitch", 1), ("rate", 1)])] := by
  refine ⟨by decide, by norm_num [Tremolo.init], ?_, by decide, by decide⟩
  have h : (15 : Rat) < 0 ∨ (15 : Rat) > 14 := by norm_num
  simp [Vibrato.init, h]

end Pomice

